import Mathlib

/-
Verification of the MoodShare data model and its follow / like / feed /
search / pagination / authentication semantics.

The definitions below are a shallow embedding of the repository's code:

* `app/models.py` — the `User` and `Post` models, the `followers` and
  `likes` association tables, and the `follow` / `unfollow` /
  `is_following` / `followed_posts` / `like` / `unlike` / `is_liked_by` /
  `like_count` / reset-token operations;
* `app/api.py` — the JSON API: `api_login`, `token_required`,
  `create_post`, `get_posts`, `get_feed`, `get_user_posts`,
  `delete_post_api`;
* `app/routes.py` — the `search` route.

The SQL database is modelled as explicit lists of rows; timestamps and
clock readings are natural numbers; strings are lists of characters.
External collaborators (SQLAlchemy query operators, flask-sqlalchemy
pagination, PyJWT encode/decode, the werkzeug password hash) are modelled
by small Lean functions following their documented behaviour, each marked
in its doc comment.
-/

namespace MoodShare

/-- A row of the `post` table (`app/models.py`, class `Post`): numeric id,
body text, creation timestamp (modelled as a natural number) and the
author's user id. -/
structure Post where
  id : Nat
  body : List Char
  timestamp : Nat
  user_id : Nat
  deriving DecidableEq, Repr

/-- A row of the `user` table (`app/models.py`, class `User`): numeric id,
username, email and the stored password hash. -/
structure UserRec where
  id : Nat
  username : List Char
  email : List Char
  password_hash : List Char
  deriving DecidableEq, Repr

/-- The persistent store: the `user` and `post` tables plus the two
association tables of `app/models.py` — `followers` holds pairs
`(follower_id, followed_id)`, `likes` holds pairs `(user_id, post_id)`. -/
structure DB where
  users : List UserRec
  posts : List Post
  followers : List (Nat × Nat)
  likes : List (Nat × Nat)
  deriving DecidableEq, Repr

/-- The count in `User.is_following` (`models.py:67-69`): number of
`followers` rows whose `follower_id` is `a` and whose `followed_id` is
`b`. -/
def follow_edge_count (s : DB) (a b : Nat) : Nat :=
  (s.followers.filter (fun e => e.1 == a && e.2 == b)).length

/-- `User.is_following` (`models.py:67-69`): the filtered count is
positive. -/
def is_following (s : DB) (a b : Nat) : Bool :=
  decide (0 < follow_edge_count s a b)

/-- `User.follow` (`models.py:59-61`): insert a `(self, user)` row into
`followers` unless `is_following` already holds. -/
def follow (s : DB) (a b : Nat) : DB :=
  if is_following s a b then s
  else { s with followers := s.followers ++ [(a, b)] }

/-- `User.unfollow` (`models.py:63-65`): when `is_following` holds,
`self.followed.remove(user)` deletes the matching `followers` rows. -/
def unfollow (s : DB) (a b : Nat) : DB :=
  if is_following s a b then
    { s with followers := s.followers.filter (fun e => !(e.1 == a && e.2 == b)) }
  else s

/-- The count in `Post.is_liked_by` (`models.py:156-158`): number of
`likes` rows for the pair `(user u, post p)` is positive. -/
def is_liked_by (s : DB) (p u : Nat) : Bool :=
  decide (0 < (s.likes.filter (fun e => e.1 == u && e.2 == p)).length)

/-- `Post.like` (`models.py:146-149`): insert a `(user, post)` row into
`likes` unless `is_liked_by` already holds. -/
def like (s : DB) (p u : Nat) : DB :=
  if is_liked_by s p u then s
  else { s with likes := s.likes ++ [(u, p)] }

/-- `Post.unlike` (`models.py:151-154`): when `is_liked_by` holds,
`self.likers.remove(user)` deletes the matching `likes` rows. -/
def unlike (s : DB) (p u : Nat) : DB :=
  if is_liked_by s p u then
    { s with likes := s.likes.filter (fun e => !(e.1 == u && e.2 == p)) }
  else s

/-- `Post.like_count` (`models.py:160-162`): `self.likers.count()`, the
number of `likes` rows whose `post_id` is `p`. -/
def like_count (s : DB) (p : Nat) : Nat :=
  (s.likes.filter (fun e => e.2 == p)).length

/-- One follow-graph call: `(true, a, b)` is `follow(a, b)`,
`(false, a, b)` is `unfollow(a, b)`. -/
def applyOp (s : DB) (op : Bool × Nat × Nat) : DB :=
  if op.1 then follow s op.2.1 op.2.2 else unfollow s op.2.1 op.2.2

/-- A sequence of follow/unfollow calls applied in order. -/
def applyOps (s : DB) (ops : List (Bool × Nat × Nat)) : DB :=
  ops.foldl applyOp s

lemma is_following_iff_pos (s : DB) (a b : Nat) :
    is_following s a b = true ↔ 0 < follow_edge_count s a b := by
  simp [is_following]

lemma follow_edge_count_append (s : DB) (a b c d : Nat) :
    follow_edge_count { s with followers := s.followers ++ [(c, d)] } a b =
      follow_edge_count s a b + (if c = a ∧ d = b then 1 else 0) := by
  simp only [follow_edge_count, List.filter_append, List.length_append]
  congr 1
  by_cases h : c = a ∧ d = b
  · obtain ⟨rfl, rfl⟩ := h
    simp
  · have hb : (c == a && d == b) = false := by
      rcases Decidable.not_and_iff_or_not.mp h with h1 | h1 <;> simp [h1]
    simp [List.filter_cons, hb, h]

lemma follow_edge_count_filter_le (s : DB) (a b : Nat) (q : Nat × Nat → Bool) :
    follow_edge_count { s with followers := s.followers.filter q } a b ≤
      follow_edge_count s a b := by
  simp only [follow_edge_count]
  exact List.Sublist.length_le ((List.filter_sublist s.followers).filter _)

lemma follow_edge_count_unfollow_le (s : DB) (a b c d : Nat) :
    follow_edge_count (unfollow s c d) a b ≤ follow_edge_count s a b := by
  unfold unfollow
  by_cases hf : is_following s c d = true
  · rw [if_pos hf]
    exact follow_edge_count_filter_le s a b _
  · rw [if_neg hf]

lemma follow_edge_count_follow_le_one (s : DB) (a b c d : Nat)
    (h : follow_edge_count s a b ≤ 1) :
    follow_edge_count (follow s c d) a b ≤ 1 := by
  unfold follow
  by_cases hf : is_following s c d = true
  · rw [if_pos hf]
    exact h
  · rw [if_neg hf, follow_edge_count_append]
    by_cases hcd : c = a ∧ d = b
    · rw [if_pos hcd]
      obtain ⟨rfl, rfl⟩ := hcd
      have h0 : follow_edge_count s c d = 0 := by
        by_contra hne
        exact hf ((is_following_iff_pos s c d).mpr (Nat.pos_of_ne_zero hne))
      omega
    · rw [if_neg hcd]
      omega

lemma follow_edge_count_le_one_step (s : DB) (a b : Nat)
    (h : follow_edge_count s a b ≤ 1) (op : Bool × Nat × Nat) :
    follow_edge_count (applyOp s op) a b ≤ 1 := by
  obtain ⟨fl, c, d⟩ := op
  cases fl
  · exact le_trans (follow_edge_count_unfollow_le s a b c d) h
  · exact follow_edge_count_follow_le_one s a b c d h

lemma follow_edge_count_applyOps_le_one (s : DB) (a b : Nat)
    (h : follow_edge_count s a b ≤ 1) (ops : List (Bool × Nat × Nat)) :
    follow_edge_count (applyOps s ops) a b ≤ 1 := by
  induction ops generalizing s with
  | nil => exact h
  | cons op rest ih =>
    exact ih (applyOp s op) (follow_edge_count_le_one_step s a b h op)

lemma is_following_follow (s : DB) (a b : Nat) :
    is_following (follow s a b) a b = true := by
  unfold follow
  by_cases h : is_following s a b = true
  · rw [if_pos h]
    exact h
  · rw [if_neg h, is_following_iff_pos, follow_edge_count_append]
    simp

/-- C2. Follow edges behave as a single boolean per ordered pair: `follow`
is idempotent and leaves exactly one `(a, b)` row, `unfollow` of an absent
edge is the identity, any sequence of follow/unfollow calls keeps at most
one `(a, b)` row, and `is_following` is exactly "the row count is one". -/
theorem follow_unfollow_contract (s : DB) (a b : Nat)
    (h : follow_edge_count s a b ≤ 1) :
    follow (follow s a b) a b = follow s a b
    ∧ follow_edge_count (follow s a b) a b = 1
    ∧ (is_following s a b = true → follow s a b = s)
    ∧ (is_following s a b = false → unfollow s a b = s)
    ∧ (∀ ops : List (Bool × Nat × Nat),
        follow_edge_count (applyOps s ops) a b ≤ 1)
    ∧ (is_following s a b = true ↔ follow_edge_count s a b = 1) := by
  refine ⟨?_, ?_, ?_, ?_, ?_, ?_⟩
  · have hf := is_following_follow s a b
    generalize follow s a b = t at hf ⊢
    unfold follow
    rw [if_pos hf]
  · by_cases hf : is_following s a b = true
    · have hpos := (is_following_iff_pos s a b).mp hf
      unfold follow
      rw [if_pos hf]
      omega
    · have h0 : follow_edge_count s a b = 0 := by
        by_contra hne
        exact hf ((is_following_iff_pos s a b).mpr (Nat.pos_of_ne_zero hne))
      unfold follow
      rw [if_neg hf, follow_edge_count_append]
      simp [h0]
  · intro hf
    unfold follow
    rw [if_pos hf]
  · intro hf
    unfold unfollow
    rw [if_neg (by simp [hf])]
  · intro ops
    exact follow_edge_count_applyOps_le_one s a b h ops
  · rw [is_following_iff_pos]
    omega

/-- Concrete instantiation of `follow_unfollow_contract`: a store where
user 1 already follows user 2 by a single edge. -/
theorem follow_unfollow_contract_witness :
    (follow_edge_count ⟨[], [], [(1, 2)], []⟩ 1 2 ≤ 1)
    ∧ (follow (follow ⟨[], [], [(1, 2)], []⟩ 1 2) 1 2 =
          follow ⟨[], [], [(1, 2)], []⟩ 1 2
        ∧ follow_edge_count (follow ⟨[], [], [(1, 2)], []⟩ 1 2) 1 2 = 1
        ∧ (is_following ⟨[], [], [(1, 2)], []⟩ 1 2 = true →
            follow ⟨[], [], [(1, 2)], []⟩ 1 2 = ⟨[], [], [(1, 2)], []⟩)
        ∧ (is_following ⟨[], [], [(1, 2)], []⟩ 1 2 = false →
            unfollow ⟨[], [], [(1, 2)], []⟩ 1 2 = ⟨[], [], [(1, 2)], []⟩)
        ∧ (∀ ops : List (Bool × Nat × Nat),
            follow_edge_count (applyOps ⟨[], [], [(1, 2)], []⟩ ops) 1 2 ≤ 1)
        ∧ (is_following ⟨[], [], [(1, 2)], []⟩ 1 2 = true ↔
            follow_edge_count ⟨[], [], [(1, 2)], []⟩ 1 2 = 1)) :=
  ⟨by decide, follow_unfollow_contract ⟨[], [], [(1, 2)], []⟩ 1 2 (by decide)⟩

lemma like_count_append (s : DB) (p u : Nat) :
    like_count { s with likes := s.likes ++ [(u, p)] } p = like_count s p + 1 := by
  simp [like_count, List.filter_append, List.filter]

lemma is_liked_by_like (s : DB) (p u : Nat) :
    is_liked_by (like s p u) p u = true := by
  unfold like
  by_cases h : is_liked_by s p u = true
  · rw [if_pos h]
    exact h
  · rw [if_neg h]
    simp [is_liked_by, List.filter_append, List.filter]

/-- C3. Likes: from a state where user `u` has not liked post `p`, calling
`like` twice equals calling it once and raises `like_count p` by exactly
one; `unlike` on the never-liked pair is the identity (so no error and an
unchanged count). -/
theorem like_unlike_contract (s : DB) (p u : Nat)
    (h : is_liked_by s p u = false) :
    like (like s p u) p u = like s p u
    ∧ like_count (like (like s p u) p u) p = like_count s p + 1
    ∧ unlike s p u = s := by
  have hone : like (like s p u) p u = like s p u := by
    have := is_liked_by_like s p u
    simp only [like] at *
    rw [if_pos this]
  refine ⟨hone, ?_, ?_⟩
  · rw [hone]
    simp only [like, h, if_false]
    exact like_count_append s p u
  · simp [unlike, h]

/-- Concrete instantiation of `like_unlike_contract`: post 7 not yet liked
by user 1 (only by user 2). -/
theorem like_unlike_contract_witness :
    (is_liked_by ⟨[], [], [], [(2, 7)]⟩ 7 1 = false)
    ∧ (like (like ⟨[], [], [], [(2, 7)]⟩ 7 1) 7 1 = like ⟨[], [], [], [(2, 7)]⟩ 7 1
        ∧ like_count (like (like ⟨[], [], [], [(2, 7)]⟩ 7 1) 7 1) 7 =
            like_count ⟨[], [], [], [(2, 7)]⟩ 7 + 1
        ∧ unlike ⟨[], [], [], [(2, 7)]⟩ 7 1 = ⟨[], [], [], [(2, 7)]⟩) :=
  ⟨by decide, like_unlike_contract ⟨[], [], [], [(2, 7)]⟩ 7 1 (by decide)⟩

/-- The ordering `Post.timestamp.desc()` used by every post listing:
newer (larger timestamp) first. -/
def byNewest (a b : Post) : Prop := b.timestamp ≤ a.timestamp

instance : DecidableRel byNewest :=
  fun a b => inferInstanceAs (Decidable (b.timestamp ≤ a.timestamp))

instance : IsTotal Post byNewest :=
  ⟨fun a b => Or.symm (Nat.le_total a.timestamp b.timestamp)⟩

instance : IsTrans Post byNewest :=
  ⟨fun _ _ _ hab hbc => le_trans hbc hab⟩

/-- `User.followed_posts` (`models.py:71-76`): the query of posts joined
through `followers` on `followed_id = Post.user_id` and filtered to
`follower_id = self.id`, `UNION`ed with the user's own posts (SQL `UNION`
discards duplicate rows, modelled by `List.dedup`), ordered by
`Post.timestamp.desc()`. -/
def followed_posts (s : DB) (u : Nat) : List Post :=
  List.insertionSort byNewest
    ((s.posts.filter (fun p => s.followers.any (fun e => e.2 == p.user_id && e.1 == u)) ++
      s.posts.filter (fun p => p.user_id == u)).dedup)

/-- C1. `followed_posts u` is exactly the union of the posts of followed
users and the user's own posts: membership holds precisely for posts whose
author is followed by `u` or is `u` itself (so with zero follow edges the
feed still holds all of `u`'s own posts), each post id appears at most
once, and the list is ordered by creation timestamp descending. -/
theorem followed_posts_spec (s : DB) (u : Nat)
    (hwf : (s.posts.map Post.id).Nodup) :
    (∀ p : Post, p ∈ followed_posts s u ↔
        (p ∈ s.posts ∧ ((∃ e ∈ s.followers, e.1 = u ∧ e.2 = p.user_id) ∨ p.user_id = u)))
    ∧ ((followed_posts s u).map Post.id).Nodup
    ∧ List.Sorted byNewest (followed_posts s u) := by
  refine ⟨?_, ?_, List.sorted_insertionSort byNewest _⟩
  · intro p
    unfold followed_posts
    rw [(List.perm_insertionSort byNewest _).mem_iff, List.mem_dedup, List.mem_append,
        List.mem_filter, List.mem_filter]
    constructor
    · rintro (⟨hp, hc⟩ | ⟨hp, hc⟩)
      · refine ⟨hp, Or.inl ?_⟩
        rcases List.any_eq_true.mp hc with ⟨e, he, hee⟩
        simp only [Bool.and_eq_true, beq_iff_eq] at hee
        exact ⟨e, he, hee.2, hee.1⟩
      · exact ⟨hp, Or.inr (by simpa using hc)⟩
    · rintro ⟨hp, ⟨e, he, h1, h2⟩ | hu⟩
      · exact Or.inl ⟨hp, List.any_eq_true.mpr ⟨e, he, by simp [h1, h2]⟩⟩
      · exact Or.inr ⟨hp, by simp [hu]⟩
  · unfold followed_posts
    have hs : ∀ q ∈ (s.posts.filter
          (fun p => s.followers.any (fun e => e.2 == p.user_id && e.1 == u)) ++
        s.posts.filter (fun p => p.user_id == u)).dedup, q ∈ s.posts := by
      intro q hq
      rcases List.mem_append.mp (List.mem_dedup.mp hq) with h | h
      · exact (List.mem_filter.mp h).1
      · exact (List.mem_filter.mp h).1
    have hinj := List.inj_on_of_nodup_map hwf
    have hd := (List.nodup_dedup _).map_on
      (fun x hx y hy hxy => hinj (hs x hx) (hs y hy) hxy)
    exact (((List.perm_insertionSort byNewest _).map Post.id).symm).nodup hd

/-- Concrete instantiation of `followed_posts_spec`: user 1 follows user 2;
posts 10 (by user 2) and 11 (by user 1) exist with distinct ids. -/
theorem followed_posts_spec_witness :
    ((DB.posts ⟨[], [⟨10, [], 5, 2⟩, ⟨11, [], 3, 1⟩], [(1, 2)], []⟩).map Post.id).Nodup
    ∧ ((∀ p : Post, p ∈ followed_posts ⟨[], [⟨10, [], 5, 2⟩, ⟨11, [], 3, 1⟩], [(1, 2)], []⟩ 1 ↔
          (p ∈ (DB.posts ⟨[], [⟨10, [], 5, 2⟩, ⟨11, [], 3, 1⟩], [(1, 2)], []⟩) ∧
            ((∃ e ∈ (DB.followers ⟨[], [⟨10, [], 5, 2⟩, ⟨11, [], 3, 1⟩], [(1, 2)], []⟩),
                e.1 = 1 ∧ e.2 = p.user_id) ∨ p.user_id = 1)))
        ∧ ((followed_posts ⟨[], [⟨10, [], 5, 2⟩, ⟨11, [], 3, 1⟩], [(1, 2)], []⟩ 1).map Post.id).Nodup
        ∧ List.Sorted byNewest (followed_posts ⟨[], [⟨10, [], 5, 2⟩, ⟨11, [], 3, 1⟩], [(1, 2)], []⟩ 1)) :=
  ⟨by decide, followed_posts_spec ⟨[], [⟨10, [], 5, 2⟩, ⟨11, [], 3, 1⟩], [(1, 2)], []⟩ 1 (by decide)⟩

/-- Python `str.strip()` on the post body (`api.py:239`): drop leading and
trailing whitespace. -/
def pyStrip (l : List Char) : List Char :=
  ((l.dropWhile Char.isWhitespace).reverse.dropWhile Char.isWhitespace).reverse

/-- Outcome of the API `create_post` route: the stored body of the new
post (HTTP 201), or an HTTP status with an error message. -/
inductive CreatePostResult where
  | created (body : List Char)
  | rejected (status : Nat) (error : List Char)
  deriving DecidableEq, Repr

/-- `create_post` (`api.py:223-254`) applied to a request whose JSON has a
`body` string: strip surrounding whitespace, reject an empty result and a
result longer than 140 characters with a 400 error, otherwise create the
post with the stripped body. -/
def create_post (body : List Char) : CreatePostResult :=
  let b := pyStrip body
  if b.length = 0 then .rejected 400 "Post body cannot be empty".toList
  else if 140 < b.length then .rejected 400 "Post body cannot exceed 140 characters".toList
  else .created b

/-- C4. `create_post` succeeds exactly when the whitespace-trimmed body is
non-empty and at most 140 characters; it stores the trimmed body without
truncation and any rejection is a 400 validation error. -/
theorem create_post_contract (body : List Char) :
    ((∃ b, create_post body = .created b) ↔
      (0 < (pyStrip body).length ∧ (pyStrip body).length ≤ 140))
    ∧ (∀ b, create_post body = .created b → b = pyStrip body)
    ∧ (∀ st e, create_post body = .rejected st e → st = 400) := by
  have main : (create_post body = .created (pyStrip body)
        ∧ 0 < (pyStrip body).length ∧ (pyStrip body).length ≤ 140)
      ∨ ((∃ e, create_post body = .rejected 400 e) ∧ (pyStrip body).length = 0)
      ∨ ((∃ e, create_post body = .rejected 400 e) ∧ 140 < (pyStrip body).length) := by
    unfold create_post
    by_cases h0 : (pyStrip body).length = 0
    · right; left
      rw [if_pos h0]
      exact ⟨⟨_, rfl⟩, h0⟩
    · rw [if_neg h0]
      by_cases h1 : 140 < (pyStrip body).length
      · right; right
        rw [if_pos h1]
        exact ⟨⟨_, rfl⟩, h1⟩
      · left
        rw [if_neg h1]
        exact ⟨rfl, Nat.pos_of_ne_zero h0, by omega⟩
  rcases main with ⟨he, hp1, hp2⟩ | ⟨⟨m, he⟩, h0⟩ | ⟨⟨m, he⟩, h1⟩
  · refine ⟨⟨fun _ => ⟨hp1, hp2⟩, fun _ => ⟨_, he⟩⟩, ?_, ?_⟩
    · intro b hb
      rw [he] at hb
      injection hb with h
      exact h.symm
    · intro st e hb
      rw [he] at hb
      simp at hb
  · refine ⟨⟨?_, ?_⟩, ?_, ?_⟩
    · rintro ⟨b, hb⟩
      rw [he] at hb
      simp at hb
    · intro hp
      omega
    · intro b hb
      rw [he] at hb
      simp at hb
    · intro st e hb
      rw [he] at hb
      injection hb with hst _
      exact hst.symm
  · refine ⟨⟨?_, ?_⟩, ?_, ?_⟩
    · rintro ⟨b, hb⟩
      rw [he] at hb
      simp at hb
    · intro hp
      omega
    · intro b hb
      rw [he] at hb
      simp at hb
    · intro st e hb
      rw [he] at hb
      injection hb with hst _
      exact hst.symm

set_option maxRecDepth 8192 in
/-- Concrete instantiation of `create_post_contract`: a 140-character body
is accepted and a 141-character body is rejected with status 400. -/
theorem create_post_contract_witness :
    (∃ b, create_post (List.replicate 140 'a') = .created b)
    ∧ (∀ st e, create_post (List.replicate 141 'a') = .rejected st e → st = 400) :=
  ⟨(create_post_contract (List.replicate 140 'a')).1.mpr (by decide),
   (create_post_contract (List.replicate 141 'a')).2.2⟩

/-- Pagination metadata as returned by flask-sqlalchemy's `Pagination`
object. -/
structure PageInfo (α : Type) where
  items : List α
  page : Nat
  per_page : Nat
  total_items : Nat
  total_pages : Nat
  has_next : Bool
  has_prev : Bool
  deriving DecidableEq, Repr

/-- `Query.paginate(page=..., per_page=..., error_out=False)` of the
external flask-sqlalchemy library, modelled from its documented behaviour
on the ordered result list `l`: the items are the rows from
`(page-1)*per_page` up to `page*per_page`, `pages` is
`ceil(total/per_page)`, `has_next` is `page < pages`, `has_prev` is
`page > 1`, and an out-of-range page yields an empty item list instead of
an error. -/
def paginate {α : Type} (l : List α) (page per_page : Nat) : PageInfo α :=
  { items := (l.drop ((page - 1) * per_page)).take per_page
    page := page
    per_page := per_page
    total_items := l.length
    total_pages := (l.length + per_page - 1) / per_page
    has_next := decide (page < (l.length + per_page - 1) / per_page)
    has_prev := decide (1 < page) }

/-- `GET /api/posts` (`api.py:193-220`): every post ordered newest first,
paginated with `per_page = min(requested, 100)` and default 20. -/
def get_posts (s : DB) (page : Nat) (per_page : Option Nat) : PageInfo Post :=
  paginate (List.insertionSort byNewest s.posts) page (min (per_page.getD 20) 100)

/-- `GET /api/feed` (`api.py:402-427`): the current user's
`followed_posts`, paginated the same way. -/
def get_feed (s : DB) (u : Nat) (page : Nat) (per_page : Option Nat) : PageInfo Post :=
  paginate (followed_posts s u) page (min (per_page.getD 20) 100)

/-- `GET /api/users/<id>/posts` (`api.py:359-386`): the given user's posts
ordered newest first, paginated the same way. -/
def get_user_posts (s : DB) (uid : Nat) (page : Nat) (per_page : Option Nat) : PageInfo Post :=
  paginate (List.insertionSort byNewest (s.posts.filter (fun p => p.user_id == uid))) page
    (min (per_page.getD 20) 100)

lemma paginate_slice {α : Type} (l : List α) (page pp : Nat) :
    (∀ i : Nat, (paginate l page pp).items[i]? =
        if i < pp then l[(page - 1) * pp + i]? else none)
    ∧ (paginate l page pp).total_items = l.length
    ∧ (paginate l page pp).total_pages = l.length ⌈/⌉ pp
    ∧ (l.length ≤ (page - 1) * pp → (paginate l page pp).items = [])
    ∧ ((paginate l page pp).has_next = true ↔ page < l.length ⌈/⌉ pp)
    ∧ ((paginate l page pp).has_prev = true ↔ 1 < page) := by
  refine ⟨?_, rfl, ?_, ?_, ?_, ?_⟩
  · intro i
    simp only [paginate]
    rw [List.getElem?_take]
    by_cases hi : i < pp
    · rw [if_pos hi, if_pos hi, List.getElem?_drop]
    · rw [if_neg hi, if_neg hi]
  · rw [Nat.ceilDiv_eq_add_pred_div]
    rfl
  · intro h
    simp [paginate, List.drop_eq_nil_of_le h]
  · simp [paginate, Nat.ceilDiv_eq_add_pred_div]
  · simp [paginate]

/-- Modelled from the spec: the external werkzeug password hash
(`generate_password_hash` / `check_password_hash`), "a one-way, salted
hash" with a boolean check, abstracted as an injective tagged copy of the
password. -/
def hashPw (password : List Char) : List Char := 'h' :: password

/-- `User.check_password` (`models.py:85-86`): compare the stored hash
against the candidate password. -/
def check_password (u : UserRec) (password : List Char) : Bool :=
  u.password_hash == hashPw password

/-- Payload of an API session token (`api.py:177-180`): the `user_id` and
the expiry `exp`. -/
structure AuthPayload where
  user_id : Nat
  exp : Nat
  deriving DecidableEq, Repr

/-- A JWT as handled by the external PyJWT library: a payload signed with
some key, or a string that is not a well-formed token at all. -/
inductive AuthToken where
  | signed (payload : AuthPayload) (key : List Char)
  | malformed (raw : List Char)
  deriving DecidableEq, Repr

/-- `api_login` (`api.py:149-186`): missing fields give a 400; an unknown
username or a failing password check gives a 401; otherwise the response
carries a token signed with the configured secret that embeds the user id
and an expiry 24 hours from now, together with `expires_in = 86400`. -/
def api_login (s : DB) (key : List Char) (now : Nat) (username password : List Char) :
    Except (Nat × List Char) (AuthToken × Nat) :=
  if username = [] ∨ password = [] then
    .error (400, "Username and password required".toList)
  else
    match s.users.find? (fun u => u.username == username) with
    | none => .error (401, "Invalid username or password".toList)
    | some u =>
      if check_password u password then
        .ok (.signed ⟨u.id, now + 86400⟩ key, 86400)
      else
        .error (401, "Invalid username or password".toList)

/-- C6. API login with an unknown username or a wrong password answers
401 unauthorized; with correct credentials it returns a token signed with
the secret embedding the user's id and an expiry 86400 seconds (24 hours)
after issuance, together with `expires_in = 86400`. -/
theorem api_login_contract (s : DB) (key : List Char) (now : Nat)
    (username password : List Char) (hu : username ≠ []) (hp : password ≠ []) :
    ((∀ u ∈ s.users, u.username ≠ username) →
      api_login s key now username password =
        .error (401, "Invalid username or password".toList))
    ∧ (∀ u, s.users.find? (fun v => v.username == username) = some u →
        check_password u password = false →
        api_login s key now username password =
          .error (401, "Invalid username or password".toList))
    ∧ (∀ u, s.users.find? (fun v => v.username == username) = some u →
        check_password u password = true →
        api_login s key now username password =
          .ok (.signed ⟨u.id, now + 86400⟩ key, 86400)) := by
  have hcond : ¬(username = [] ∨ password = []) := by
    rintro (h | h)
    exacts [hu h, hp h]
  refine ⟨?_, ?_, ?_⟩
  · intro hnone
    have hfind : s.users.find? (fun u => u.username == username) = none :=
      List.find?_eq_none.mpr (fun x hx => by simp [hnone x hx])
    unfold api_login
    rw [if_neg hcond, hfind]
  · intro u hfind hcp
    unfold api_login
    rw [if_neg hcond, hfind]
    simp [hcp]
  · intro u hfind hcp
    unfold api_login
    rw [if_neg hcond, hfind]
    simp [hcp]

/-- Concrete instantiation of `api_login_contract`: the registered user
alice logs in with the right password and gets a token expiring 86400
seconds after issuance; with a wrong password she gets a 401. -/
theorem api_login_contract_witness :
    ("alice".toList ≠ [] ∧ "pw123456".toList ≠ [])
    ∧ api_login ⟨[⟨1, "alice".toList, "alice@x.com".toList, hashPw "pw123456".toList⟩], [], [], []⟩
        "secret".toList 0 "alice".toList "pw123456".toList =
        .ok (.signed ⟨1, 86400⟩ "secret".toList, 86400)
    ∧ api_login ⟨[⟨1, "alice".toList, "alice@x.com".toList, hashPw "pw123456".toList⟩], [], [], []⟩
        "secret".toList 0 "alice".toList "wrong".toList =
        .error (401, "Invalid username or password".toList) :=
  ⟨⟨by decide, by decide⟩,
   (api_login_contract _ "secret".toList 0 "alice".toList "pw123456".toList
      (by decide) (by decide)).2.2
     ⟨1, "alice".toList, "alice@x.com".toList, hashPw "pw123456".toList⟩ (by decide) (by decide),
   (api_login_contract _ "secret".toList 0 "alice".toList "wrong".toList
      (by decide) (by decide)).2.1
     ⟨1, "alice".toList, "alice@x.com".toList, hashPw "pw123456".toList⟩ (by decide) (by decide)⟩

/-- Payload of a password-reset token (`models.py:93-96`): the
`reset_password` claim holding the user id, and the expiry `exp`. -/
structure ResetPayload where
  reset_password : Nat
  exp : Nat
  deriving DecidableEq, Repr

/-- A password-reset JWT: a payload signed with some key, or a malformed
string. -/
inductive ResetToken where
  | signed (payload : ResetPayload) (key : List Char)
  | malformed (raw : List Char)
  deriving DecidableEq, Repr

/-- `User.get_reset_password_token` (`models.py:93-96`):
`jwt.encode({'reset_password': self.id, 'exp': time() + expires_in}, SECRET_KEY)`;
the caller uses the default `expires_in = 600`. -/
def get_reset_password_token (u : UserRec) (key : List Char) (now expires_in : Nat) :
    ResetToken :=
  .signed ⟨u.id, now + expires_in⟩ key

/-- The external `jwt.decode` (PyJWT) applied to a reset token: a token
signed with the matching key decodes to its payload while the current
time is strictly before `exp`; PyJWT raises `ExpiredSignatureError` once
`exp <= now` (RFC 7519: the current time must be before the expiration),
and anything else raises too — every raise is modelled as `none`. -/
def jwt_decode_reset (key : List Char) (now : Nat) : ResetToken → Option ResetPayload
  | .signed p k => if k = key ∧ now < p.exp then some p else none
  | .malformed _ => none

/-- `User.verify_reset_password_token` (`models.py:98-105`): decode the
token, return no user on any exception, otherwise `User.query.get(id)`. -/
def verify_reset_password_token (s : DB) (key : List Char) (now : Nat) (t : ResetToken) :
    Option UserRec :=
  match jwt_decode_reset key now t with
  | none => none
  | some p => s.users.find? (fun u => u.id == p.reset_password)

/-- C7 (counterexample to the claim as stated): at exactly 600 seconds
elapsed the reset token is already rejected — PyJWT raises
`ExpiredSignatureError` as soon as `exp <= now` — so verification
returns no user although user 5 is present in the store. -/
theorem reset_token_counterexample :
    verify_reset_password_token ⟨[⟨5, [], [], []⟩], [], [], []⟩ "k".toList (1000 + 600)
      (get_reset_password_token ⟨5, [], [], []⟩ "k".toList 1000 600) = none := by
  decide

/-- C7 (amended). Reset-token round trip: for a user present in the
store, verifying the token issued for that user at any elapsed time
strictly below the 600-second expiry yields a user with the same id;
verifying a malformed string never errors and always yields no user. -/
theorem reset_token_contract (s : DB) (key : List Char) (u : UserRec)
    (t0 elapsed : Nat) (hmem : u ∈ s.users) (he : elapsed < 600) :
    (∃ v, verify_reset_password_token s key (t0 + elapsed)
        (get_reset_password_token u key t0 600) = some v ∧ v.id = u.id)
    ∧ (∀ now : Nat, ∀ raw : List Char,
        verify_reset_password_token s key now (.malformed raw) = none) := by
  constructor
  · have hsome : (s.users.find? (fun w => w.id == u.id)).isSome :=
      List.find?_isSome.mpr ⟨u, hmem, by simp⟩
    obtain ⟨v, hv⟩ := Option.isSome_iff_exists.mp hsome
    refine ⟨v, ?_, by simpa using List.find?_some hv⟩
    have hle : t0 + elapsed < t0 + 600 := by omega
    simp [verify_reset_password_token, get_reset_password_token, jwt_decode_reset, hle, hv]
  · intro now raw
    rfl

/-- Concrete instantiation of `reset_token_contract`: user 5's token
verified at 599 seconds elapsed, one second before expiry. -/
theorem reset_token_contract_witness :
    ((⟨5, [], [], []⟩ : UserRec) ∈ (DB.users ⟨[⟨5, [], [], []⟩], [], [], []⟩) ∧ 599 < 600)
    ∧ ((∃ v, verify_reset_password_token ⟨[⟨5, [], [], []⟩], [], [], []⟩ "k".toList (1000 + 599)
          (get_reset_password_token ⟨5, [], [], []⟩ "k".toList 1000 600) = some v ∧
            v.id = (5 : Nat))
        ∧ (∀ now : Nat, ∀ raw : List Char,
            verify_reset_password_token ⟨[⟨5, [], [], []⟩], [], [], []⟩ "k".toList now
              (.malformed raw) = none)) :=
  ⟨⟨by decide, by decide⟩,
   reset_token_contract ⟨[⟨5, [], [], []⟩], [], [], []⟩ "k".toList ⟨5, [], [], []⟩ 1000 599
     (by decide) (by decide)⟩

/-- Outcome of `jwt.decode` inside `token_required` (`api.py:88-104`):
the payload, or the `ExpiredSignatureError` / `InvalidTokenError`
exception branches. -/
inductive AuthDecode where
  | ok (p : AuthPayload)
  | expired
  | invalid
  deriving DecidableEq, Repr

/-- The external `jwt.decode(token, SECRET_KEY, algorithms=['HS256'])` on
an API token: a matching signature yields the payload while the current
time is strictly before `exp`, and `ExpiredSignatureError` once
`exp <= now` (RFC 7519: the current time must be before the expiration);
a wrong key or a malformed string yields `InvalidTokenError`. -/
def jwt_decode_auth (key : List Char) (now : Nat) : AuthToken → AuthDecode
  | .signed p k => if k = key then (if now < p.exp then .ok p else .expired) else .invalid
  | .malformed _ => .invalid

/-- `token_required` (`api.py:68-107`) wrapped around a route body. `tok`
is the bearer token carried by the `Authorization` header (`none` when
the header is absent or not of the shape `Bearer <token>`); the route
body runs only when the token decodes and its `user_id` resolves to a
stored user. Responses are modelled as a status code with a body. -/
def token_required (s : DB) (key : List Char) (now : Nat) (tok : Option AuthToken)
    (route : UserRec → Nat × List Char) : Nat × List Char :=
  match tok with
  | none => (401, "Missing token".toList)
  | some t =>
    match jwt_decode_auth key now t with
    | .expired => (401, "Token expired".toList)
    | .invalid => (401, "Invalid token".toList)
    | .ok p =>
      match s.users.find? (fun u => u.id == p.user_id) with
      | none => (401, "User not found".toList)
      | some u => route u

/-- C10. A structurally valid, correctly signed, unexpired bearer token
whose embedded `user_id` matches no stored user makes every protected
route answer `401 "User not found"`, whatever the route body is: the body
is never run, so no 200 response (and no crash) can occur. -/
theorem token_required_unknown_user (s : DB) (key : List Char) (now : Nat)
    (p : AuthPayload) (hexp : now < p.exp)
    (hno : ∀ u ∈ s.users, u.id ≠ p.user_id) :
    ∀ route : UserRec → Nat × List Char,
      token_required s key now (some (.signed p key)) route =
        (401, "User not found".toList) := by
  intro route
  have hfind : s.users.find? (fun u => u.id == p.user_id) = none :=
    List.find?_eq_none.mpr (fun x hx => by simp [hno x hx])
  simp [token_required, jwt_decode_auth, hexp, hfind]

/-- Concrete instantiation of `token_required_unknown_user`: a valid
unexpired token for user id 9 against a store whose only user has id 1,
with a route body that would answer 200. -/
theorem token_required_unknown_user_witness :
    ((0 : Nat) < 10 ∧ (∀ u ∈ (DB.users ⟨[⟨1, [], [], []⟩], [], [], []⟩), u.id ≠ (9 : Nat)))
    ∧ token_required ⟨[⟨1, [], [], []⟩], [], [], []⟩ "k".toList 0
        (some (.signed ⟨9, 10⟩ "k".toList)) (fun _ => (200, "ok".toList)) =
        (401, "User not found".toList) :=
  ⟨⟨by decide, by decide⟩,
   token_required_unknown_user ⟨[⟨1, [], [], []⟩], [], [], []⟩ "k".toList 0 ⟨9, 10⟩
     (by decide) (by decide) (fun _ => (200, "ok".toList))⟩

/-- `delete_post` (`api.py:271-290` and `routes.py:263-278`):
`db.session.delete(post)` removes the post row, and through the `likers`
relationship over the `likes` secondary table SQLAlchemy also deletes the
post's rows from `likes`; nothing else is touched. -/
def delete_post (s : DB) (pid : Nat) : DB :=
  { s with posts := s.posts.filter (fun p => p.id != pid)
           likes := s.likes.filter (fun e => e.2 != pid) }

/-- C9. `delete_post` removes the post and exactly its like edges: no like
pair for the deleted post remains, like edges of other posts are
preserved, follow edges are untouched, and the deleted post is gone while
every other post stays. -/
theorem delete_post_contract (s : DB) (pid : Nat) :
    (∀ u : Nat, (u, pid) ∉ (delete_post s pid).likes)
    ∧ (∀ e : Nat × Nat, e.2 ≠ pid → ((e ∈ (delete_post s pid).likes) ↔ e ∈ s.likes))
    ∧ (delete_post s pid).followers = s.followers
    ∧ (∀ p : Post, p ∈ (delete_post s pid).posts ↔ (p ∈ s.posts ∧ p.id ≠ pid)) := by
  refine ⟨?_, ?_, rfl, ?_⟩
  · intro u hmem
    have h := (List.mem_filter.mp hmem).2
    simp at h
  · intro e he
    constructor
    · intro hm
      exact (List.mem_filter.mp hm).1
    · intro hm
      exact List.mem_filter.mpr ⟨hm, by simpa using he⟩
  · intro p
    rw [show (delete_post s pid).posts = s.posts.filter (fun p => p.id != pid) from rfl,
        List.mem_filter]
    simp

/-- Concrete instantiation of `delete_post_contract`: deleting post 7
drops its like edge, keeps post 8's like edge and the follow edge. -/
theorem delete_post_contract_witness :
    (∀ u : Nat, (u, 7) ∉ (delete_post ⟨[], [⟨7, [], 1, 1⟩, ⟨8, [], 2, 2⟩], [(1, 2)],
        [(1, 7), (2, 8)]⟩ 7).likes)
    ∧ (∀ e : Nat × Nat, e.2 ≠ 7 →
        ((e ∈ (delete_post ⟨[], [⟨7, [], 1, 1⟩, ⟨8, [], 2, 2⟩], [(1, 2)],
            [(1, 7), (2, 8)]⟩ 7).likes) ↔
          e ∈ (DB.likes ⟨[], [⟨7, [], 1, 1⟩, ⟨8, [], 2, 2⟩], [(1, 2)], [(1, 7), (2, 8)]⟩)))
    ∧ (delete_post ⟨[], [⟨7, [], 1, 1⟩, ⟨8, [], 2, 2⟩], [(1, 2)], [(1, 7), (2, 8)]⟩ 7).followers =
        DB.followers ⟨[], [⟨7, [], 1, 1⟩, ⟨8, [], 2, 2⟩], [(1, 2)], [(1, 7), (2, 8)]⟩
    ∧ (∀ p : Post, p ∈ (delete_post ⟨[], [⟨7, [], 1, 1⟩, ⟨8, [], 2, 2⟩], [(1, 2)],
          [(1, 7), (2, 8)]⟩ 7).posts ↔
        (p ∈ (DB.posts ⟨[], [⟨7, [], 1, 1⟩, ⟨8, [], 2, 2⟩], [(1, 2)], [(1, 7), (2, 8)]⟩)
          ∧ p.id ≠ 7)) :=
  delete_post_contract ⟨[], [⟨7, [], 1, 1⟩, ⟨8, [], 2, 2⟩], [(1, 2)], [(1, 7), (2, 8)]⟩ 7

/-- Any-suffix search: does `f` hold of some suffix of the text? -/
def anySuffix (f : List Char → Bool) : List Char → Bool
  | [] => f []
  | c :: ts => f (c :: ts) || anySuffix f ts

/-- "Contains `q` as a case-insensitive substring": some suffix of `s`
starts with `q` when both are lower-cased. This is the notion the spec's
search sentence describes. -/
def containsCI (q s : List Char) : Bool :=
  anySuffix (fun t => (q.map Char.toLower).isPrefixOf (t.map Char.toLower)) s

/-- The external SQL `ILIKE` matcher behind SQLAlchemy's `.ilike`
(`routes.py:321-330`), modelled from SQL LIKE semantics exactly as the
route's own comment block documents them: `%` matches any character
sequence, `_` matches exactly one character, any other pattern character
matches one text character case-insensitively. -/
def likeMatch : List Char → List Char → Bool
  | [], [] => true
  | [], _ :: _ => false
  | p :: ps, [] => if p = '%' then likeMatch ps [] else false
  | p :: ps, c :: ts =>
    if p = '%' then likeMatch ps (c :: ts) || likeMatch (p :: ps) ts
    else if p = '_' then likeMatch ps ts
    else (Char.toLower p == Char.toLower c) && likeMatch ps ts
termination_by ps t => ps.length + t.length
decreasing_by
  all_goals simp only [List.length_cons]
  all_goals omega

/-- The user half of `/search` (`routes.py:321-323`):
`User.username.ilike(f'%{query}%')` capped at 10 rows. -/
def search_users (s : DB) (q : List Char) : List UserRec :=
  (s.users.filter (fun u => likeMatch ('%' :: (q ++ ['%'])) u.username)).take 10

/-- The post half of `/search` (`routes.py:326-330`):
`Post.body.ilike(f'%{query}%')` ordered by timestamp descending (its
pagination is the shared `paginate` contract). -/
def search_posts (s : DB) (q : List Char) : List Post :=
  List.insertionSort byNewest
    (s.posts.filter (fun p => likeMatch ('%' :: (q ++ ['%'])) p.body))

/-- The `/search` route (`routes.py:305-339`). The guard is modelled from
the spec because `SearchForm` lives in `app/forms.py`, which is not among
the sources: per the spec, "an empty or missing query yields empty result
sets for both (not an error)". -/
def search (s : DB) (q : Option (List Char)) : List UserRec × List Post :=
  match q with
  | none => ([], [])
  | some qs => if qs = [] then ([], []) else (search_users s qs, search_posts s qs)

lemma anySuffix_congr (f g : List Char → Bool) (h : ∀ u, f u = g u) :
    ∀ t, anySuffix f t = anySuffix g t := by
  intro t
  induction t with
  | nil => simp [anySuffix, h]
  | cons c ts ih => simp [anySuffix, h, ih]

lemma likeMatch_pct (ps : List Char) (t : List Char) :
    likeMatch ('%' :: ps) t = anySuffix (likeMatch ps) t := by
  induction t with
  | nil => simp [likeMatch, anySuffix]
  | cons c ts ih => simp [likeMatch, anySuffix, ih]

lemma likeMatch_pct_nil (t : List Char) : likeMatch ['%'] t = true := by
  induction t with
  | nil => simp [likeMatch]
  | cons c ts ih => simp [likeMatch, ih]

lemma likeMatch_plain (q : List Char) :
    (∀ c ∈ q, c ≠ '%' ∧ c ≠ '_') →
    ∀ t, likeMatch (q ++ ['%']) t =
      (q.map Char.toLower).isPrefixOf (t.map Char.toLower) := by
  induction q with
  | nil =>
    intro _ t
    simpa [List.isPrefixOf] using likeMatch_pct_nil t
  | cons p ps ih =>
    intro hq t
    obtain ⟨hp1, hp2⟩ := hq p (List.mem_cons_self p ps)
    have hqs : ∀ c ∈ ps, c ≠ '%' ∧ c ≠ '_' := fun c hc => hq c (List.mem_cons_of_mem p hc)
    cases t with
    | nil => simp [likeMatch, hp1, List.isPrefixOf]
    | cons c ts => simp [likeMatch, hp1, hp2, List.isPrefixOf, ih hqs ts]

lemma likeMatch_wildfree (q : List Char) (hw : ∀ c ∈ q, c ≠ '%' ∧ c ≠ '_')
    (t : List Char) : likeMatch ('%' :: (q ++ ['%'])) t = containsCI q t := by
  rw [likeMatch_pct (q ++ ['%']) t, containsCI]
  exact anySuffix_congr _ _ (fun u => likeMatch_plain q hw u) t

/-- C8 (counterexample to the claim as stated): against a store holding a
single user named "ab", searching for the query "_" returns that user,
although "ab" does not contain "_" as a substring — the query is
interpolated into the LIKE pattern unescaped, so `_` acts as a one-character
wildcard instead of a literal. -/
theorem search_counterexample :
    (search ⟨[⟨1, ['a', 'b'], [], []⟩], [], [], []⟩ (some ['_'])).1 =
      [⟨1, ['a', 'b'], [], []⟩]
    ∧ containsCI ['_'] ['a', 'b'] = false := by
  have hne1 : ('_' : Char) ≠ '%' := by decide
  have h2 : likeMatch ['%', '_', '%'] ['a', 'b'] = true := by
    rw [likeMatch_pct]
    simp [anySuffix, likeMatch, hne1]
  constructor
  · simp [search, search_users, List.filter, h2]
  · decide

/-- C8 (amended). For a non-empty query free of the SQL LIKE wildcards
`%` and `_`: the user results are exactly the users whose username
contains the query as a case-insensitive substring, capped at 10; the
post results are exactly the posts whose body contains the query as a
case-insensitive substring, ordered by creation timestamp descending; an
empty or missing query yields empty result sets for both, not an error. -/
theorem search_contract (s : DB) (q : List Char)
    (hq : q ≠ []) (hw : ∀ c ∈ q, c ≠ '%' ∧ c ≠ '_') :
    (search s (some q)).1 = (s.users.filter (fun u => containsCI q u.username)).take 10
    ∧ (∀ p : Post, p ∈ (search s (some q)).2 ↔ (p ∈ s.posts ∧ containsCI q p.body = true))
    ∧ List.Sorted byNewest (search s (some q)).2
    ∧ search s none = ([], [])
    ∧ search s (some []) = ([], []) := by
  have hsq : search s (some q) = (search_users s q, search_posts s q) := by
    simp [search, hq]
  refine ⟨?_, ?_, ?_, rfl, by simp [search]⟩
  · rw [hsq]
    show (s.users.filter (fun u => likeMatch ('%' :: (q ++ ['%'])) u.username)).take 10 = _
    congr 1
    exact List.filter_congr (fun u _ => likeMatch_wildfree q hw u.username)
  · intro p
    rw [hsq]
    show p ∈ search_posts s q ↔ _
    unfold search_posts
    rw [(List.perm_insertionSort byNewest _).mem_iff, List.mem_filter,
        likeMatch_wildfree q hw p.body]
  · rw [hsq]
    exact List.sorted_insertionSort byNewest _

/-- Concrete instantiation of `search_contract`: query "B" against a user
"ab" and two posts, one with body "xAby" (a match, case-insensitively)
and one with body "cd". -/
theorem search_contract_witness :
    ((['B'] : List Char) ≠ [] ∧ (∀ c ∈ (['B'] : List Char), c ≠ '%' ∧ c ≠ '_'))
    ∧ ((search ⟨[⟨1, ['a', 'b'], [], []⟩], [⟨1, ['x', 'A', 'b', 'y'], 1, 1⟩,
          ⟨2, ['c', 'd'], 2, 1⟩], [], []⟩ (some ['B'])).1 =
        ((DB.users ⟨[⟨1, ['a', 'b'], [], []⟩], [⟨1, ['x', 'A', 'b', 'y'], 1, 1⟩,
          ⟨2, ['c', 'd'], 2, 1⟩], [], []⟩).filter
            (fun u => containsCI ['B'] u.username)).take 10
      ∧ (∀ p : Post, p ∈ (search ⟨[⟨1, ['a', 'b'], [], []⟩], [⟨1, ['x', 'A', 'b', 'y'], 1, 1⟩,
            ⟨2, ['c', 'd'], 2, 1⟩], [], []⟩ (some ['B'])).2 ↔
          (p ∈ (DB.posts ⟨[⟨1, ['a', 'b'], [], []⟩], [⟨1, ['x', 'A', 'b', 'y'], 1, 1⟩,
            ⟨2, ['c', 'd'], 2, 1⟩], [], []⟩) ∧ containsCI ['B'] p.body = true))
      ∧ List.Sorted byNewest (search ⟨[⟨1, ['a', 'b'], [], []⟩],
          [⟨1, ['x', 'A', 'b', 'y'], 1, 1⟩, ⟨2, ['c', 'd'], 2, 1⟩], [], []⟩ (some ['B'])).2
      ∧ search ⟨[⟨1, ['a', 'b'], [], []⟩], [⟨1, ['x', 'A', 'b', 'y'], 1, 1⟩,
          ⟨2, ['c', 'd'], 2, 1⟩], [], []⟩ none = ([], [])
      ∧ search ⟨[⟨1, ['a', 'b'], [], []⟩], [⟨1, ['x', 'A', 'b', 'y'], 1, 1⟩,
          ⟨2, ['c', 'd'], 2, 1⟩], [], []⟩ (some []) = ([], [])) :=
  ⟨⟨by decide, by decide⟩,
   search_contract ⟨[⟨1, ['a', 'b'], [], []⟩], [⟨1, ['x', 'A', 'b', 'y'], 1, 1⟩,
     ⟨2, ['c', 'd'], 2, 1⟩], [], []⟩ ['B'] (by decide) (by decide)⟩

/-- Modelled from the spec: the `POSTS_PER_PAGE` configuration value used
by the page-route listings (`config.py` is not among the sources; the
spec's pagination contract gives the default page size 20). -/
def POSTS_PER_PAGE : Nat := 20

/-- The post listing of the `/search` page route (`routes.py:317-330`):
the request is read for `q` and `page` only, and the pagination width is
the fixed `app.config['POSTS_PER_PAGE']`; a `per_page` request parameter
is never read — the ignored argument records the request value it would
carry. -/
def search_posts_page (s : DB) (q : List Char) (page : Nat) (_per_page : Option Nat) :
    PageInfo Post :=
  paginate (search_posts s q) page POSTS_PER_PAGE

/-- C5 (counterexample to the claim as stated): the search-posts listing
does not honour the `per_page` parameter — `routes.py:326-330` paginates
with the fixed configured `POSTS_PER_PAGE` and never reads `per_page`.
With two posts matching the query "a", `page = 1` and `per_page = 1`
(inside 1..100), both posts are returned instead of the claimed
one-element slice, and the response for `per_page = 1` is identical to
the response for `per_page = 100`. -/
theorem pagination_counterexample :
    (search_posts_page ⟨[], [⟨1, ['a'], 1, 1⟩, ⟨2, ['a'], 2, 1⟩], [], []⟩ ['a'] 1
        (some 1)).items.length = 2
    ∧ search_posts_page ⟨[], [⟨1, ['a'], 1, 1⟩, ⟨2, ['a'], 2, 1⟩], [], []⟩ ['a'] 1 (some 1) =
        search_posts_page ⟨[], [⟨1, ['a'], 1, 1⟩, ⟨2, ['a'], 2, 1⟩], [], []⟩ ['a'] 1
          (some 100) := by
  have hlm : ∀ t, likeMatch ['%', 'a', '%'] t = containsCI ['a'] t := by
    intro t
    have h := likeMatch_wildfree ['a'] (by decide) t
    simpa using h
  refine ⟨?_, rfl⟩
  simp only [search_posts_page, search_posts, paginate, List.cons_append, List.nil_append, hlm]
  decide

/-- C5 (amended). Pagination contract of the paginated listings. For the
token-API listings (all posts / explore, feed, user posts), given
`page ≥ 1` and `per_page` between 1 and 100: the items are exactly the
slice `[(page-1)*per_page, page*per_page)` of the ordered result list,
the metadata carries the total item count, the total page count
`ceil(total/per_page)` and the `has_next` / `has_prev` flags, a
`per_page` above 100 is clamped to 100, an omitted `per_page` defaults to
20, and a page past the end yields an empty slice, not an error. The
search-posts listing paginates the same way but with the fixed configured
page size `POSTS_PER_PAGE` (20), ignoring any `per_page` request
parameter, so no clamping or default applies to it. -/
theorem pagination_contract (s : DB) (u page pp : Nat) (q : List Char)
    (hpg : 1 ≤ page) (hpp1 : 1 ≤ pp) (hpp2 : pp ≤ 100) :
    ((get_posts s page (some pp)).per_page = pp
      ∧ (get_posts s page none).per_page = 20
      ∧ ∀ r : Nat, 100 < r → (get_posts s page (some r)).per_page = 100)
    ∧ (∀ i : Nat, (get_posts s page (some pp)).items[i]? =
        if i < pp then (List.insertionSort byNewest s.posts)[(page - 1) * pp + i]? else none)
    ∧ (get_posts s page (some pp)).total_items = s.posts.length
    ∧ (get_posts s page (some pp)).total_pages = s.posts.length ⌈/⌉ pp
    ∧ ((get_posts s page (some pp)).has_next = true ↔ page < s.posts.length ⌈/⌉ pp)
    ∧ ((get_posts s page (some pp)).has_prev = true ↔ 1 < page)
    ∧ (s.posts.length ≤ (page - 1) * pp → (get_posts s page (some pp)).items = [])
    ∧ (∀ i : Nat, (get_feed s u page (some pp)).items[i]? =
        if i < pp then (followed_posts s u)[(page - 1) * pp + i]? else none)
    ∧ (get_feed s u page (some pp)).total_items = (followed_posts s u).length
    ∧ (get_feed s u page (some pp)).total_pages = (followed_posts s u).length ⌈/⌉ pp
    ∧ ((get_feed s u page (some pp)).has_next = true ↔
        page < (followed_posts s u).length ⌈/⌉ pp)
    ∧ ((get_feed s u page (some pp)).has_prev = true ↔ 1 < page)
    ∧ ((followed_posts s u).length ≤ (page - 1) * pp →
        (get_feed s u page (some pp)).items = [])
    ∧ (∀ i : Nat, (get_user_posts s u page (some pp)).items[i]? =
        if i < pp then
          (List.insertionSort byNewest
            (s.posts.filter (fun p => p.user_id == u)))[(page - 1) * pp + i]?
        else none)
    ∧ (get_user_posts s u page (some pp)).total_items =
        (s.posts.filter (fun p => p.user_id == u)).length
    ∧ (get_user_posts s u page (some pp)).total_pages =
        (s.posts.filter (fun p => p.user_id == u)).length ⌈/⌉ pp
    ∧ ((get_user_posts s u page (some pp)).has_next = true ↔
        page < (s.posts.filter (fun p => p.user_id == u)).length ⌈/⌉ pp)
    ∧ ((get_user_posts s u page (some pp)).has_prev = true ↔ 1 < page)
    ∧ ((s.posts.filter (fun p => p.user_id == u)).length ≤ (page - 1) * pp →
        (get_user_posts s u page (some pp)).items = [])
    ∧ (∀ r : Option Nat, search_posts_page s q page r = search_posts_page s q page none)
    ∧ (search_posts_page s q page none).per_page = POSTS_PER_PAGE
    ∧ (∀ i : Nat, (search_posts_page s q page none).items[i]? =
        if i < POSTS_PER_PAGE then
          (search_posts s q)[(page - 1) * POSTS_PER_PAGE + i]?
        else none)
    ∧ (search_posts_page s q page none).total_items =
        (s.posts.filter (fun p => likeMatch ('%' :: (q ++ ['%'])) p.body)).length
    ∧ (search_posts_page s q page none).total_pages =
        (s.posts.filter (fun p => likeMatch ('%' :: (q ++ ['%'])) p.body)).length
          ⌈/⌉ POSTS_PER_PAGE
    ∧ ((search_posts_page s q page none).has_next = true ↔
        page < (s.posts.filter (fun p => likeMatch ('%' :: (q ++ ['%'])) p.body)).length
          ⌈/⌉ POSTS_PER_PAGE)
    ∧ ((search_posts_page s q page none).has_prev = true ↔ 1 < page)
    ∧ ((search_posts s q).length ≤ (page - 1) * POSTS_PER_PAGE →
        (search_posts_page s q page none).items = []) := by
  have hmin : min pp 100 = pp := Nat.min_eq_left hpp2
  have hsort := (List.perm_insertionSort byNewest s.posts).length_eq
  have hupl := (List.perm_insertionSort byNewest
    (s.posts.filter (fun p => p.user_id == u))).length_eq
  have hspl : (search_posts s q).length =
      (s.posts.filter (fun p => likeMatch ('%' :: (q ++ ['%'])) p.body)).length :=
    (List.perm_insertionSort byNewest _).length_eq
  have h1 := paginate_slice (List.insertionSort byNewest s.posts) page pp
  have h2 := paginate_slice (followed_posts s u) page pp
  have h3 := paginate_slice
    (List.insertionSort byNewest (s.posts.filter (fun p => p.user_id == u))) page pp
  have h4 := paginate_slice (search_posts s q) page POSTS_PER_PAGE
  refine ⟨⟨?_, rfl, ?_⟩, ?_, ?_, ?_, ?_, ?_, ?_, ?_, ?_, ?_, ?_, ?_, ?_, ?_, ?_, ?_,
    ?_, ?_, ?_, ?_, ?_, ?_, ?_, ?_, ?_, ?_, ?_⟩
  · simp [get_posts, paginate, hmin]
  · intro r hr
    simp only [get_posts, paginate, Option.getD_some]
    omega
  · intro i
    simpa only [get_posts, Option.getD_some, hmin] using h1.1 i
  · simp only [get_posts, Option.getD_some, hmin]
    rw [h1.2.1, hsort]
  · simp only [get_posts, Option.getD_some, hmin]
    rw [h1.2.2.1, hsort]
  · simp only [get_posts, Option.getD_some, hmin]
    rw [h1.2.2.2.2.1, hsort]
  · simp only [get_posts, Option.getD_some, hmin]
    exact h1.2.2.2.2.2
  · intro h
    simp only [get_posts, Option.getD_some, hmin]
    exact h1.2.2.2.1 (hsort ▸ h)
  · intro i
    simpa only [get_feed, Option.getD_some, hmin] using h2.1 i
  · simp only [get_feed, Option.getD_some, hmin]
    exact h2.2.1
  · simp only [get_feed, Option.getD_some, hmin]
    exact h2.2.2.1
  · simp only [get_feed, Option.getD_some, hmin]
    exact h2.2.2.2.2.1
  · simp only [get_feed, Option.getD_some, hmin]
    exact h2.2.2.2.2.2
  · intro h
    simp only [get_feed, Option.getD_some, hmin]
    exact h2.2.2.2.1 h
  · intro i
    simpa only [get_user_posts, Option.getD_some, hmin] using h3.1 i
  · simp only [get_user_posts, Option.getD_some, hmin]
    rw [h3.2.1, hupl]
  · simp only [get_user_posts, Option.getD_some, hmin]
    rw [h3.2.2.1, hupl]
  · simp only [get_user_posts, Option.getD_some, hmin]
    rw [h3.2.2.2.2.1, hupl]
  · simp only [get_user_posts, Option.getD_some, hmin]
    exact h3.2.2.2.2.2
  · intro h
    simp only [get_user_posts, Option.getD_some, hmin]
    exact h3.2.2.2.1 (hupl ▸ h)
  · intro r
    rfl
  · rfl
  · intro i
    simpa only [search_posts_page] using h4.1 i
  · simp only [search_posts_page]
    rw [h4.2.1, hspl]
  · simp only [search_posts_page]
    rw [h4.2.2.1, hspl]
  · simp only [search_posts_page]
    rw [h4.2.2.2.2.1, hspl]
  · simp only [search_posts_page]
    exact h4.2.2.2.2.2
  · intro h
    simp only [search_posts_page]
    exact h4.2.2.2.1 h

/-- Concrete instantiation of `pagination_contract` on the empty store
with `page = 1`, `per_page = 1`, query "a". -/
theorem pagination_contract_witness :
    (1 ≤ 1 ∧ 1 ≤ 100)
    ∧ (((get_posts ⟨[], [], [], []⟩ 1 (some 1)).per_page = 1
      ∧ (get_posts ⟨[], [], [], []⟩ 1 none).per_page = 20
      ∧ ∀ r : Nat, 100 < r → (get_posts ⟨[], [], [], []⟩ 1 (some r)).per_page = 100)
    ∧ (∀ i : Nat, (get_posts ⟨[], [], [], []⟩ 1 (some 1)).items[i]? =
        if i < 1 then
          (List.insertionSort byNewest (DB.posts ⟨[], [], [], []⟩))[(1 - 1) * 1 + i]?
        else none)
    ∧ (get_posts ⟨[], [], [], []⟩ 1 (some 1)).total_items = (DB.posts ⟨[], [], [], []⟩).length
    ∧ (get_posts ⟨[], [], [], []⟩ 1 (some 1)).total_pages =
        (DB.posts ⟨[], [], [], []⟩).length ⌈/⌉ 1
    ∧ ((get_posts ⟨[], [], [], []⟩ 1 (some 1)).has_next = true ↔
        1 < (DB.posts ⟨[], [], [], []⟩).length ⌈/⌉ 1)
    ∧ ((get_posts ⟨[], [], [], []⟩ 1 (some 1)).has_prev = true ↔ 1 < 1)
    ∧ ((DB.posts ⟨[], [], [], []⟩).length ≤ (1 - 1) * 1 →
        (get_posts ⟨[], [], [], []⟩ 1 (some 1)).items = [])
    ∧ (∀ i : Nat, (get_feed ⟨[], [], [], []⟩ 3 1 (some 1)).items[i]? =
        if i < 1 then (followed_posts ⟨[], [], [], []⟩ 3)[(1 - 1) * 1 + i]? else none)
    ∧ (get_feed ⟨[], [], [], []⟩ 3 1 (some 1)).total_items =
        (followed_posts ⟨[], [], [], []⟩ 3).length
    ∧ (get_feed ⟨[], [], [], []⟩ 3 1 (some 1)).total_pages =
        (followed_posts ⟨[], [], [], []⟩ 3).length ⌈/⌉ 1
    ∧ ((get_feed ⟨[], [], [], []⟩ 3 1 (some 1)).has_next = true ↔
        1 < (followed_posts ⟨[], [], [], []⟩ 3).length ⌈/⌉ 1)
    ∧ ((get_feed ⟨[], [], [], []⟩ 3 1 (some 1)).has_prev = true ↔ 1 < 1)
    ∧ ((followed_posts ⟨[], [], [], []⟩ 3).length ≤ (1 - 1) * 1 →
        (get_feed ⟨[], [], [], []⟩ 3 1 (some 1)).items = [])
    ∧ (∀ i : Nat, (get_user_posts ⟨[], [], [], []⟩ 3 1 (some 1)).items[i]? =
        if i < 1 then
          (List.insertionSort byNewest
            ((DB.posts ⟨[], [], [], []⟩).filter (fun p => p.user_id == 3)))[(1 - 1) * 1 + i]?
        else none)
    ∧ (get_user_posts ⟨[], [], [], []⟩ 3 1 (some 1)).total_items =
        ((DB.posts ⟨[], [], [], []⟩).filter (fun p => p.user_id == 3)).length
    ∧ (get_user_posts ⟨[], [], [], []⟩ 3 1 (some 1)).total_pages =
        ((DB.posts ⟨[], [], [], []⟩).filter (fun p => p.user_id == 3)).length ⌈/⌉ 1
    ∧ ((get_user_posts ⟨[], [], [], []⟩ 3 1 (some 1)).has_next = true ↔
        1 < ((DB.posts ⟨[], [], [], []⟩).filter (fun p => p.user_id == 3)).length ⌈/⌉ 1)
    ∧ ((get_user_posts ⟨[], [], [], []⟩ 3 1 (some 1)).has_prev = true ↔ 1 < 1)
    ∧ (((DB.posts ⟨[], [], [], []⟩).filter (fun p => p.user_id == 3)).length ≤ (1 - 1) * 1 →
        (get_user_posts ⟨[], [], [], []⟩ 3 1 (some 1)).items = [])
    ∧ (∀ r : Option Nat, search_posts_page ⟨[], [], [], []⟩ ['a'] 1 r =
        search_posts_page ⟨[], [], [], []⟩ ['a'] 1 none)
    ∧ (search_posts_page ⟨[], [], [], []⟩ ['a'] 1 none).per_page = POSTS_PER_PAGE
    ∧ (∀ i : Nat, (search_posts_page ⟨[], [], [], []⟩ ['a'] 1 none).items[i]? =
        if i < POSTS_PER_PAGE then
          (search_posts ⟨[], [], [], []⟩ ['a'])[(1 - 1) * POSTS_PER_PAGE + i]?
        else none)
    ∧ (search_posts_page ⟨[], [], [], []⟩ ['a'] 1 none).total_items =
        ((DB.posts ⟨[], [], [], []⟩).filter
          (fun p => likeMatch ('%' :: (['a'] ++ ['%'])) p.body)).length
    ∧ (search_posts_page ⟨[], [], [], []⟩ ['a'] 1 none).total_pages =
        ((DB.posts ⟨[], [], [], []⟩).filter
          (fun p => likeMatch ('%' :: (['a'] ++ ['%'])) p.body)).length ⌈/⌉ POSTS_PER_PAGE
    ∧ ((search_posts_page ⟨[], [], [], []⟩ ['a'] 1 none).has_next = true ↔
        1 < ((DB.posts ⟨[], [], [], []⟩).filter
          (fun p => likeMatch ('%' :: (['a'] ++ ['%'])) p.body)).length ⌈/⌉ POSTS_PER_PAGE)
    ∧ ((search_posts_page ⟨[], [], [], []⟩ ['a'] 1 none).has_prev = true ↔ 1 < 1)
    ∧ ((search_posts ⟨[], [], [], []⟩ ['a']).length ≤ (1 - 1) * POSTS_PER_PAGE →
        (search_posts_page ⟨[], [], [], []⟩ ['a'] 1 none).items = [])) :=
  ⟨⟨le_refl 1, by omega⟩,
   pagination_contract ⟨[], [], [], []⟩ 3 1 1 ['a'] (le_refl 1) (le_refl 1) (by omega)⟩

end MoodShare
